import Mathlib

/-!
Verification of the `brazilcep.apicep` adapter (`src/brazilcep/apicep.py`).

The module issues one HTTP GET against the ApiCEP endpoint, classifies the
response, and either returns a normalized address record (a dict with the six
keys `district`, `cep`, `city`, `street`, `uf`, `complement`) or raises one of
a fixed set of exceptions.

Shallow embedding conventions:

* The network is modelled as an input of type `TransportResult`: either the
  transport layer produced a `Response` (HTTP status code plus the parsed
  JSON body of `response.text`), or it failed with one of the five
  `requests` exceptions that `fetch_address` catches (each carrying the
  textual detail of the original exception object, so that wrapping can be
  observed).  `fetch_address` here is the pure function from that input to
  the Python outcome of the source function.
* A JSON scalar is a `JVal` (null, boolean, integer or string).  The fields
  `status` and `message` of the parsed body, which the source reads with the
  unguarded lookups `address["status"]` and `address["message"]` and compares
  with `==` against the int `400` / `404` and against two string literals,
  are kept as `Option JVal` (`none` = key absent, in which case the lookup
  raises `KeyError`).
* The five payload fields `district`, `code`, `city`, `address`, `state`
  are read with `address.get(k) or ""`.  Per the documented upstream shape
  each is a string or null when present, so they are modelled as
  `Option (Option String)`: `none` = key absent (`.get` gives `None`),
  `some none` = JSON null, `some (some s)` = string `s`.  On these values
  Python `v or ""` yields `""` for `None` and for the (falsy) empty string,
  and `v` otherwise; `pyOrBlank` is exactly that.
* Outcomes: `PyOutcome.ok r` models `return r`; `PyOutcome.raised e` models
  raising one of the exceptions of `brazilcep.exceptions`; and
  `PyOutcome.keyError k` models an uncaught Python `KeyError` on key `k`
  escaping the function (nothing in the source catches it).
-/

/-- A JSON scalar value as produced by `json.loads` for the fields the source
compares with `==`.  Python equality between values of distinct constructors
below is `False`, matching `DecidableEq` on this type (arrays, objects and
floats never occur in the upstream payload and are not modelled). -/
inductive JVal where
  | jnull : JVal
  | jbool : Bool → JVal
  | jint : Int → JVal
  | jstr : String → JVal
deriving DecidableEq, Repr

/-- The parsed JSON body of a 200 response (`json.loads(response.text)`).
`status` and `message` keep their JSON value so that the `==` comparisons of
the source can be modelled exactly; the five payload fields follow the
documented upstream shape (string or JSON null when the key is present). -/
structure JsonBody where
  status : Option JVal
  message : Option JVal
  district : Option (Option String)
  code : Option (Option String)
  city : Option (Option String)
  address : Option (Option String)
  state : Option (Option String)
deriving DecidableEq, Repr

/-- A transport response: the HTTP status code together with the parsed JSON
body.  The body is only inspected on the 200 path; claims about other status
codes hold for every body. -/
structure Response where
  status_code : Int
  body : JsonBody
deriving DecidableEq, Repr

/-- The five `requests.exceptions` kinds that the source catches, each
carrying the rendering of the original exception object `exc`. -/
inductive TransportExc where
  | connectionError : String → TransportExc
  | httpError : String → TransportExc
  | urlRequired : String → TransportExc
  | tooManyRedirects : String → TransportExc
  | timeout : String → TransportExc
deriving DecidableEq, Repr

/-- Outcome of the `requests.get` call: a response, or one of the five
transport failures. -/
inductive TransportResult where
  | success : Response → TransportResult
  | failure : TransportExc → TransportResult
deriving DecidableEq, Repr

/-- The exceptions of `brazilcep.exceptions` that `fetch_address` raises.
The first five wrap the original transport exception (the source constructs
them as `exceptions.ConnectionError(exc)` and so on); the base class
`BrazilCEPException` carries its message string. -/
inductive BrazilCEPExc where
  | connectionError : TransportExc → BrazilCEPExc
  | httpError : TransportExc → BrazilCEPExc
  | urlRequired : TransportExc → BrazilCEPExc
  | tooManyRedirects : TransportExc → BrazilCEPExc
  | timeout : TransportExc → BrazilCEPExc
  | invalidCEP : BrazilCEPExc
  | blockedByFlood : BrazilCEPExc
  | cepNotFound : BrazilCEPExc
  | brazilCEPException : String → BrazilCEPExc
deriving DecidableEq, Repr

/-- The normalized address record returned on success.  The structure has
exactly the six keys built at lines 75-82 of the source, each a string. -/
structure AddressRecord where
  district : String
  cep : String
  city : String
  street : String
  uf : String
  complement : String
deriving DecidableEq, Repr

/-- Outcome of a call of the Python function: a returned value, a raised
`brazilcep` exception, or an uncaught `KeyError` on the named key. -/
inductive PyOutcome (α : Type) where
  | ok : α → PyOutcome α
  | raised : BrazilCEPExc → PyOutcome α
  | keyError : String → PyOutcome α
deriving DecidableEq, Repr

/-- `URL.format(cep)`: the fixed template with the CEP substituted. -/
def requestURL (cep : String) : String :=
  "https://ws.apicep.com/cep/" ++ cep ++ ".json"

/-- Python `address.get(k) or ""` on a field whose JSON value is a string or
null: key absent gives `None`, `None or ""` is `""`, `"" or ""` is `""`
(the empty string is falsy), and any other string is returned unchanged. -/
def pyOrBlank : Option (Option String) → String
  | some (some s) => if s = "" then "" else s
  | some none => ""
  | none => ""

/-- Character-list core of Python `s.split(sep)[0]`: the longest prefix of
the list in which no position starts an occurrence of `sep`.  Scans left to
right and stops right before the first occurrence. -/
def splitHeadAux (sep : List Char) : List Char → List Char
  | [] => []
  | c :: cs => if sep.isPrefixOf (c :: cs) then [] else c :: splitHeadAux sep cs

/-- Python `s.split(sep)[0]` for a nonempty separator: the portion of `s`
strictly before the first occurrence of `sep`, or all of `s` when `sep` does
not occur. -/
def pySplitHead (s sep : String) : String :=
  String.mk (splitHeadAux sep.data s.data)

/-- The literal truncation marker of line 79 of the source. -/
def truncMarker : String := " - até"

/-- The message of line 66 of the source. -/
def invalidCEPMessage : String := "CEP informado é inválido"

/-- The message of line 69 of the source. -/
def floodMessage : String := "Blocked by flood"

/-- The record built at lines 75-82 of the source from the parsed body. -/
def buildRecord (address : JsonBody) : AddressRecord :=
  { district := pyOrBlank address.district
    cep := pyOrBlank address.code
    city := pyOrBlank address.city
    street := pySplitHead (pyOrBlank address.address) truncMarker
    uf := pyOrBlank address.state
    complement := "" }

/-- `brazilcep.apicep.fetch_address`, lines 45-87 of the source, as a pure
function of the transport outcome.  The five `except` clauses wrap the caught
exception; on HTTP 200 the body is classified with the unguarded lookups
`address["status"]` and `address["message"]` (Python `and` is lazy, so
`message` is only looked up when the status value equals the int 400); HTTP
429 raises `BlockedByFlood`; any other code raises the base exception with
the status code rendered into its message. -/
def fetch_address : TransportResult → PyOutcome AddressRecord
  | .failure (.connectionError d) => .raised (.connectionError (.connectionError d))
  | .failure (.httpError d) => .raised (.httpError (.httpError d))
  | .failure (.urlRequired d) => .raised (.urlRequired (.urlRequired d))
  | .failure (.tooManyRedirects d) => .raised (.tooManyRedirects (.tooManyRedirects d))
  | .failure (.timeout d) => .raised (.timeout (.timeout d))
  | .success response =>
    if response.status_code = 200 then
      let address := response.body
      match address.status with
      | none => .keyError "status"
      | some st =>
        if st = .jint 400 then
          match address.message with
          | none => .keyError "message"
          | some msg =>
            if msg = .jstr invalidCEPMessage then .raised .invalidCEP
            else if msg = .jstr floodMessage then .raised .blockedByFlood
            else if st = .jint 404 then .raised .cepNotFound
            else .ok (buildRecord address)
        else if st = .jint 404 then .raised .cepNotFound
        else .ok (buildRecord address)
    else if response.status_code = 429 then
      .raised .blockedByFlood
    else
      .raised (.brazilCEPException ("Other error. Status code: " ++ toString response.status_code))

/-- `pyOrBlank` on a present string field returns the string itself (for the
empty string the two sides of the Python `or` coincide). -/
theorem pyOrBlank_str (s : String) : pyOrBlank (some (some s)) = s := by
  by_cases h : s = "" <;> simp [pyOrBlank, h]

/-- When the separator does not occur in the list, `splitHeadAux` keeps the
whole list (Python: `s.split(sep)[0] == s` when `sep not in s`). -/
theorem splitHeadAux_of_not_infix (sep : List Char) :
    ∀ l : List Char, ¬ List.IsInfix sep l → splitHeadAux sep l = l := by
  intro l
  induction l with
  | nil => intro _; rfl
  | cons c cs ih =>
    intro h
    have hpre : ¬ sep.isPrefixOf (c :: cs) = true := by
      intro hp
      rcases List.isPrefixOf_iff_prefix.mp hp with ⟨t, ht⟩
      exact h ⟨[], t, by simpa using ht⟩
    have hcs : ¬ List.IsInfix sep cs := by
      intro hinf
      rcases hinf with ⟨s, t, hst⟩
      exact h ⟨c :: s, t, by simp [hst]⟩
    simp [splitHeadAux, hpre, ih hcs]

/-- When the (nonempty) separator occurs in the list, `splitHeadAux` returns
the portion strictly before its first occurrence: the list splits as
result ++ sep ++ rest, and every other such split cuts at the same position
or later. -/
theorem splitHeadAux_of_infix (sep : List Char) (hsep : sep ≠ []) :
    ∀ l : List Char, List.IsInfix sep l →
      ∃ rest, l = splitHeadAux sep l ++ sep ++ rest ∧
        ∀ s' rest', l = s' ++ sep ++ rest' → (splitHeadAux sep l).length ≤ s'.length := by
  intro l
  induction l with
  | nil =>
    intro h
    rcases h with ⟨s, t, hst⟩
    simp [List.append_eq_nil] at hst
    exact absurd hst.2.1 hsep
  | cons c cs ih =>
    intro h
    by_cases hpre : sep.isPrefixOf (c :: cs) = true
    · rcases List.isPrefixOf_iff_prefix.mp hpre with ⟨t, ht⟩
      refine ⟨t, ?_, ?_⟩
      · simp [splitHeadAux, hpre, ht]
      · intro s' rest' _
        simp [splitHeadAux, hpre]
    · have hcs : List.IsInfix sep cs := by
        rcases h with ⟨s, t, hst⟩
        cases s with
        | nil =>
          exact absurd (List.isPrefixOf_iff_prefix.mpr ⟨t, by simpa using hst⟩) hpre
        | cons c₀ s₀ =>
          have hst' : c₀ :: (s₀ ++ sep ++ t) = c :: cs := by simpa using hst
          exact ⟨s₀, t, (List.cons_eq_cons.mp hst').2⟩
      rcases ih hcs with ⟨rest, hrest, hmin⟩
      refine ⟨rest, ?_, ?_⟩
      · simpa [splitHeadAux, hpre] using hrest
      · intro s' rest' heq
        cases s' with
        | nil =>
          exact absurd (List.isPrefixOf_iff_prefix.mpr ⟨rest', by simpa using heq.symm⟩) hpre
        | cons c₀ s₀ =>
          have heq' : c₀ :: (s₀ ++ sep ++ rest') = c :: cs := by simpa using heq.symm
          have hlen := hmin s₀ rest' (List.cons_eq_cons.mp heq').2.symm
          simp [splitHeadAux, hpre]
          omega

/-- The success path of `fetch_address`: an HTTP 200 response whose body has
a status value that is not the int 404, and, when it is the int 400, a
message value equal to neither recognized error message, falls through the
three `if` statements and returns the normalized record. -/
theorem fetch_address_ok (body : JsonBody) (st : JVal)
    (hst : body.status = some st) (h404 : st ≠ .jint 404)
    (h400 : st = .jint 400 → ∃ m, body.message = some m ∧
      m ≠ .jstr invalidCEPMessage ∧ m ≠ .jstr floodMessage) :
    fetch_address (.success ⟨200, body⟩) = .ok (buildRecord body) := by
  by_cases h : st = .jint 400
  · rcases h400 h with ⟨m, hm, hm₁, hm₂⟩
    simp [fetch_address, hst, h, hm, hm₁, hm₂]
  · simp [fetch_address, hst, h, h404]

/-- Claim C1: every HTTP 200 response whose body is not classified as an
error (status value not the int 404, and when it is the int 400 the message
value matches neither recognized error string) makes `fetch_address` return
a record with exactly the six keys of `AddressRecord`, with `complement`
always the empty string, `cep` taken from the upstream `code` field and `uf`
from the upstream `state` field. -/
theorem c1_success_record_shape (body : JsonBody) (st : JVal)
    (hst : body.status = some st) (h404 : st ≠ .jint 404)
    (h400 : st = .jint 400 → ∃ m, body.message = some m ∧
      m ≠ .jstr invalidCEPMessage ∧ m ≠ .jstr floodMessage) :
    fetch_address (.success ⟨200, body⟩) =
      .ok { district := pyOrBlank body.district
            cep := pyOrBlank body.code
            city := pyOrBlank body.city
            street := pySplitHead (pyOrBlank body.address) truncMarker
            uf := pyOrBlank body.state
            complement := "" } := by
  rw [fetch_address_ok body st hst h404 h400]
  rfl

/-- Witness for C1 at a concrete 200 response. -/
theorem c1_success_record_shape_witness :
    fetch_address (.success ⟨200,
      { status := some (.jint 200), message := none,
        district := some (some "Sé"), code := some (some "01001-000"),
        city := some (some "São Paulo"), address := some (some "Praça da Sé"),
        state := some (some "SP") }⟩) =
      .ok { district := "Sé", cep := "01001-000", city := "São Paulo",
            street := "Praça da Sé", uf := "SP", complement := "" } := by
  rw [c1_success_record_shape _ (.jint 200) rfl (by decide)
    (fun h => absurd h (by decide))]
  decide

/-- Claim C3: an HTTP 200 response whose body has status value the int 400
and message value the string of line 66 makes `fetch_address` raise
`InvalidCEP` and never return a value. -/
theorem c3_invalid_cep (body : JsonBody)
    (hst : body.status = some (.jint 400))
    (hm : body.message = some (.jstr invalidCEPMessage)) :
    fetch_address (.success ⟨200, body⟩) = .raised .invalidCEP ∧
      ∀ r, fetch_address (.success ⟨200, body⟩) ≠ .ok r := by
  have heq : fetch_address (.success ⟨200, body⟩) = .raised .invalidCEP := by
    simp [fetch_address, hst, hm]
  exact ⟨heq, fun r h => by rw [heq] at h; exact PyOutcome.noConfusion h⟩

/-- Witness for C3 at a concrete invalid-CEP body. -/
theorem c3_invalid_cep_witness :
    fetch_address (.success ⟨200,
      { status := some (.jint 400), message := some (.jstr "CEP informado é inválido"),
        district := none, code := none, city := none, address := none,
        state := none }⟩) = .raised .invalidCEP :=
  (c3_invalid_cep _ rfl rfl).1

/-- Claim C5: an HTTP 200 response whose body has status value the int 404
makes `fetch_address` raise `CEPNotFound` and never return a value (the 400
branch is skipped without touching `message`, so no extra condition is
needed). -/
theorem c5_cep_not_found (body : JsonBody)
    (hst : body.status = some (.jint 404)) :
    fetch_address (.success ⟨200, body⟩) = .raised .cepNotFound ∧
      ∀ r, fetch_address (.success ⟨200, body⟩) ≠ .ok r := by
  have heq : fetch_address (.success ⟨200, body⟩) = .raised .cepNotFound := by
    simp [fetch_address, hst, show (JVal.jint 404 = JVal.jint 400) = False from by decide]
  exact ⟨heq, fun r h => by rw [heq] at h; exact PyOutcome.noConfusion h⟩

/-- Witness for C5 at a concrete not-found body. -/
theorem c5_cep_not_found_witness :
    fetch_address (.success ⟨200,
      { status := some (.jint 404), message := none, district := none,
        code := none, city := none, address := none, state := none }⟩) =
      .raised .cepNotFound :=
  (c5_cep_not_found _ rfl).1

/-- Claim C6: every response whose HTTP status code is neither 200 nor 429
makes `fetch_address` raise the base `BrazilCEPException` whose message
contains the rendering of that exact status code, and never return a
value. -/
theorem c6_generic_error (resp : Response)
    (h200 : resp.status_code ≠ 200) (h429 : resp.status_code ≠ 429) :
    ∃ msg, fetch_address (.success resp) = .raised (.brazilCEPException msg) ∧
      List.IsInfix (toString resp.status_code).data msg.data ∧
      ∀ r, fetch_address (.success resp) ≠ .ok r := by
  obtain ⟨sc, body⟩ := resp
  simp only at h200 h429
  have heq : fetch_address (.success ⟨sc, body⟩) =
      .raised (.brazilCEPException ("Other error. Status code: " ++ toString sc)) := by
    simp [fetch_address, h200, h429]
  refine ⟨"Other error. Status code: " ++ toString sc, heq, ?_, ?_⟩
  · exact ⟨"Other error. Status code: ".data, [], by simp [String.data_append]⟩
  · intro r h
    rw [heq] at h
    exact PyOutcome.noConfusion h

/-- Witness for C6 at a concrete 500 response. -/
theorem c6_generic_error_witness :
    ∃ msg, fetch_address (.success ⟨500,
        { status := none, message := none, district := none, code := none,
          city := none, address := none, state := none }⟩) =
        .raised (.brazilCEPException msg) ∧
      List.IsInfix (toString (500 : Int)).data msg.data ∧
      ∀ r, fetch_address (.success ⟨500,
        { status := none, message := none, district := none, code := none,
          city := none, address := none, state := none }⟩) ≠ .ok r :=
  c6_generic_error _ (by decide) (by decide)

/-- Claim C7: every transport-level failure is re-raised as the classified
exception of the taxonomy wrapping the original transport exception, and no
transport failure ever returns a value (in particular a transport timeout
raises `Timeout` and never returns partial data). -/
theorem c7_transport_wrapping :
    (∀ d, fetch_address (.failure (.connectionError d)) =
      .raised (.connectionError (.connectionError d))) ∧
    (∀ d, fetch_address (.failure (.httpError d)) =
      .raised (.httpError (.httpError d))) ∧
    (∀ d, fetch_address (.failure (.urlRequired d)) =
      .raised (.urlRequired (.urlRequired d))) ∧
    (∀ d, fetch_address (.failure (.tooManyRedirects d)) =
      .raised (.tooManyRedirects (.tooManyRedirects d))) ∧
    (∀ d, fetch_address (.failure (.timeout d)) =
      .raised (.timeout (.timeout d))) ∧
    (∀ e r, fetch_address (.failure e) ≠ .ok r) := by
  refine ⟨fun d => rfl, fun d => rfl, fun d => rfl, fun d => rfl, fun d => rfl, ?_⟩
  intro e r h
  cases e <;> exact PyOutcome.noConfusion h

/-- Witness for C7 at a concrete timed-out request. -/
theorem c7_transport_wrapping_witness :
    fetch_address (.failure (.timeout "read timed out")) =
      .raised (.timeout (.timeout "read timed out")) :=
  c7_transport_wrapping.2.2.2.2.1 "read timed out"

/-- Claim C2: on the success path the returned `street` equals the upstream
`address` value truncated at the first occurrence of the literal marker
`" - até"` (only the portion before the marker is kept, and no other split
point comes earlier); with no marker the value is kept unchanged; a missing
or null `address` gives the empty string. -/
theorem c2_street_truncation (body : JsonBody) (st : JVal)
    (hst : body.status = some st) (h404 : st ≠ .jint 404)
    (h400 : st = .jint 400 → ∃ m, body.message = some m ∧
      m ≠ .jstr invalidCEPMessage ∧ m ≠ .jstr floodMessage) :
    ∃ r, fetch_address (.success ⟨200, body⟩) = .ok r ∧
      ((body.address = none ∨ body.address = some none) → r.street = "") ∧
      (∀ a, body.address = some (some a) →
        (¬ List.IsInfix truncMarker.data a.data → r.street = a) ∧
        (List.IsInfix truncMarker.data a.data →
          ∃ rest, a.data = r.street.data ++ truncMarker.data ++ rest ∧
            ∀ s' rest', a.data = s' ++ truncMarker.data ++ rest' →
              r.street.data.length ≤ s'.length)) := by
  refine ⟨buildRecord body, fetch_address_ok body st hst h404 h400, ?_, ?_⟩
  · intro h
    rcases h with h | h <;> simp [buildRecord, h, pyOrBlank, pySplitHead, splitHeadAux]
  · intro a ha
    have hstreet : (buildRecord body).street = pySplitHead a truncMarker := by
      simp [buildRecord, ha, pyOrBlank_str]
    constructor
    · intro hni
      rw [hstreet, pySplitHead, splitHeadAux_of_not_infix _ _ hni]
    · intro hinf
      rcases splitHeadAux_of_infix truncMarker.data (by decide) a.data hinf with
        ⟨rest, hr, hmin⟩
      rw [hstreet]
      exact ⟨rest, hr, hmin⟩

/-- Witness for C2 at a concrete body whose address carries the marker. -/
theorem c2_street_truncation_witness :
    ∃ r, fetch_address (.success ⟨200,
        { status := some (.jint 200), message := none, district := none,
          code := none, city := none,
          address := some (some "Rua X - até 999"), state := none }⟩) = .ok r ∧
      (((some (some "Rua X - até 999") : Option (Option String)) = none ∨
        (some (some "Rua X - até 999") : Option (Option String)) = some none) →
        r.street = "") ∧
      (∀ a, (some (some "Rua X - até 999") : Option (Option String)) = some (some a) →
        (¬ List.IsInfix truncMarker.data a.data → r.street = a) ∧
        (List.IsInfix truncMarker.data a.data →
          ∃ rest, a.data = r.street.data ++ truncMarker.data ++ rest ∧
            ∀ s' rest', a.data = s' ++ truncMarker.data ++ rest' →
              r.street.data.length ≤ s'.length)) :=
  c2_street_truncation _ (.jint 200) rfl (by decide) (fun h => absurd h (by decide))

/-- Claim C8: on the success path every upstream payload field that is
missing or null is normalized to the empty string in the returned record
(`address` feeding `street`), and no key of the record is omitted or null:
`AddressRecord` has all six fields, each a total `String`. -/
theorem c8_blank_normalization (body : JsonBody) (st : JVal)
    (hst : body.status = some st) (h404 : st ≠ .jint 404)
    (h400 : st = .jint 400 → ∃ m, body.message = some m ∧
      m ≠ .jstr invalidCEPMessage ∧ m ≠ .jstr floodMessage) :
    ∃ r, fetch_address (.success ⟨200, body⟩) = .ok r ∧
      ((body.district = none ∨ body.district = some none) → r.district = "") ∧
      ((body.code = none ∨ body.code = some none) → r.cep = "") ∧
      ((body.city = none ∨ body.city = some none) → r.city = "") ∧
      ((body.address = none ∨ body.address = some none) → r.street = "") ∧
      ((body.state = none ∨ body.state = some none) → r.uf = "") := by
  refine ⟨buildRecord body, fetch_address_ok body st hst h404 h400, ?_, ?_, ?_, ?_, ?_⟩ <;>
    intro h <;> rcases h with h | h <;>
    simp [buildRecord, h, pyOrBlank, pySplitHead, splitHeadAux]

/-- Witness for C8 at a body with all payload fields absent or null. -/
theorem c8_blank_normalization_witness :
    ∃ r, fetch_address (.success ⟨200,
        { status := some (.jint 200), message := none, district := none,
          code := some none, city := none, address := some none,
          state := none }⟩) = .ok r ∧
      (((none : Option (Option String)) = none ∨
        (none : Option (Option String)) = some none) → r.district = "") ∧
      (((some none : Option (Option String)) = none ∨
        (some none : Option (Option String)) = some none) → r.cep = "") ∧
      (((none : Option (Option String)) = none ∨
        (none : Option (Option String)) = some none) → r.city = "") ∧
      (((some none : Option (Option String)) = none ∨
        (some none : Option (Option String)) = some none) → r.street = "") ∧
      (((none : Option (Option String)) = none ∨
        (none : Option (Option String)) = some none) → r.uf = "") :=
  c8_blank_normalization _ (.jint 200) rfl (by decide) (fun h => absurd h (by decide))

/-- Claim C9: a 200 body whose status value is the int 400 with a message
value equal to neither recognized error string raises nothing and returns
the normalized record; more generally every status value other than the int
404 (with, at the int 400, an unrecognized message) is treated as success. -/
theorem c9_unrecognized_is_success :
    (∀ body : JsonBody, ∀ m : JVal, body.status = some (.jint 400) →
      body.message = some m → m ≠ .jstr invalidCEPMessage → m ≠ .jstr floodMessage →
      fetch_address (.success ⟨200, body⟩) = .ok (buildRecord body)) ∧
    (∀ body : JsonBody, ∀ st : JVal, body.status = some st → st ≠ .jint 404 →
      (st = .jint 400 → ∃ m, body.message = some m ∧
        m ≠ .jstr invalidCEPMessage ∧ m ≠ .jstr floodMessage) →
      fetch_address (.success ⟨200, body⟩) = .ok (buildRecord body)) := by
  constructor
  · intro body m hst hm hm₁ hm₂
    exact fetch_address_ok body (.jint 400) hst (by decide) (fun _ => ⟨m, hm, hm₁, hm₂⟩)
  · intro body st hst h404 h400
    exact fetch_address_ok body st hst h404 h400

/-- Witness for C9: a 200 body reporting status 400 with an unrecognized
message is returned as a normalized record. -/
theorem c9_unrecognized_is_success_witness :
    fetch_address (.success ⟨200,
      { status := some (.jint 400), message := some (.jstr "Unexpected message"),
        district := none, code := none, city := none, address := none,
        state := none }⟩) =
      .ok (buildRecord
      { status := some (.jint 400), message := some (.jstr "Unexpected message"),
        district := none, code := none, city := none, address := none,
        state := none }) :=
  c9_unrecognized_is_success.1 _ (.jstr "Unexpected message") rfl rfl
    (by decide) (by decide)

/-- Claim C4: `fetch_address` raises `BlockedByFlood` in exactly two cases:
an HTTP 200 response whose body has status value the int 400 and message
value the string "Blocked by flood", and any response with HTTP status 429
regardless of the body. -/
theorem c4_blocked_by_flood_iff (t : TransportResult) :
    fetch_address t = .raised .blockedByFlood ↔
      ∃ resp, t = .success resp ∧
        ((resp.status_code = 200 ∧ resp.body.status = some (.jint 400) ∧
          resp.body.message = some (.jstr floodMessage)) ∨
         resp.status_code = 429) := by
  have hmsg : (JVal.jstr invalidCEPMessage = JVal.jstr floodMessage) = False := by decide
  cases t with
  | failure e => cases e <;> simp [fetch_address]
  | success resp =>
    obtain ⟨sc, body⟩ := resp
    by_cases h200 : sc = 200
    · subst h200
      rcases hbs : body.status with _ | st
      · simp [fetch_address, hbs]
      · by_cases h400 : st = .jint 400
        · subst h400
          rcases hbm : body.message with _ | m
          · simp [fetch_address, hbs, hbm]
          · by_cases hm₁ : m = .jstr invalidCEPMessage
            · subst hm₁
              simp [fetch_address, hbs, hbm, hmsg]
            · by_cases hm₂ : m = .jstr floodMessage
              · subst hm₂
                simp [fetch_address, hbs, hbm, hm₁]
              · simp [fetch_address, hbs, hbm, hm₁, hm₂,
                  show (JVal.jint 400 = JVal.jint 404) = False from by decide]
        · by_cases h404 : st = .jint 404
          · subst h404
            simp [fetch_address, hbs, h400]
          · simp [fetch_address, hbs, h400, h404]
    · by_cases h429 : sc = 429
      · subst h429
        simp [fetch_address]
      · simp [fetch_address, h200, h429]

/-- Witness for C4: a 429 response raises `BlockedByFlood`. -/
theorem c4_blocked_by_flood_iff_witness :
    fetch_address (.success ⟨429,
      { status := none, message := none, district := none, code := none,
        city := none, address := none, state := none }⟩) =
      .raised .blockedByFlood :=
  (c4_blocked_by_flood_iff _).mpr ⟨_, rfl, .inr rfl⟩

/-- Claim C10: on a 200 response whose body has the key `status`, and the
key `message` whenever the status value is the int 400, `fetch_address`
terminates with a normalized record or a raised classified exception and the
two unguarded lookups cannot fail; a 200 body with status 400 and no
`message` key falls outside the precondition, where the unguarded lookup
raises `KeyError`. -/
theorem c10_totality (body : JsonBody) :
    (body.status ≠ none →
      (body.status = some (.jint 400) → body.message ≠ none) →
      ((∃ r, fetch_address (.success ⟨200, body⟩) = .ok r) ∨
       (∃ e, fetch_address (.success ⟨200, body⟩) = .raised e)) ∧
      ∀ k, fetch_address (.success ⟨200, body⟩) ≠ .keyError k) ∧
    (body.status = some (.jint 400) → body.message = none →
      fetch_address (.success ⟨200, body⟩) = .keyError "message") := by
  constructor
  · intro h₁ h₂
    have hres : (∃ r, fetch_address (.success ⟨200, body⟩) = .ok r) ∨
        (∃ e, fetch_address (.success ⟨200, body⟩) = .raised e) := by
      rcases hbs : body.status with _ | st
      · exact absurd hbs h₁
      · by_cases h400 : st = .jint 400
        · subst h400
          rcases hbm : body.message with _ | m
          · exact absurd hbm (h₂ hbs)
          · by_cases hm₁ : m = .jstr invalidCEPMessage
            · subst hm₁
              exact .inr ⟨.invalidCEP, by simp [fetch_address, hbs, hbm]⟩
            · by_cases hm₂ : m = .jstr floodMessage
              · subst hm₂
                exact .inr ⟨.blockedByFlood, by simp [fetch_address, hbs, hbm, hm₁]⟩
              · exact .inl ⟨buildRecord body,
                  fetch_address_ok body (.jint 400) hbs (by decide)
                    (fun _ => ⟨m, hbm, hm₁, hm₂⟩)⟩
        · by_cases h404 : st = .jint 404
          · subst h404
            exact .inr ⟨.cepNotFound, by
              simp [fetch_address, hbs,
                show (JVal.jint 404 = JVal.jint 400) = False from by decide]⟩
          · exact .inl ⟨buildRecord body,
              fetch_address_ok body st hbs h404 (fun hc => absurd hc h400)⟩
    refine ⟨hres, ?_⟩
    intro k hk
    rcases hres with ⟨r, hr⟩ | ⟨e, he⟩
    · rw [hr] at hk; exact PyOutcome.noConfusion hk
    · rw [he] at hk; exact PyOutcome.noConfusion hk
  · intro hbs hbm
    simp [fetch_address, hbs, hbm]

/-- Witness for C10 at a concrete body satisfying the precondition. -/
theorem c10_totality_witness :
    ((∃ r, fetch_address (.success ⟨200,
        { status := some (.jint 404), message := none, district := none,
          code := none, city := none, address := none, state := none }⟩) = .ok r) ∨
     (∃ e, fetch_address (.success ⟨200,
        { status := some (.jint 404), message := none, district := none,
          code := none, city := none, address := none, state := none }⟩) =
        .raised e)) ∧
    ∀ k, fetch_address (.success ⟨200,
        { status := some (.jint 404), message := none, district := none,
          code := none, city := none, address := none, state := none }⟩) ≠
      .keyError k :=
  (c10_totality _).1 (by decide) (fun h => absurd h (by decide))
